import Mathlib

/-
Verification of the AI Council multi-backend orchestrator.

The development shallowly embeds the three source modules:
  * models.py  (ModelManager: configuration load/validation, backend invocation,
    parallel fan-out),
  * main.py    (AICouncilServer: input validation and the orchestration pipeline),
  * logger.py  (AICouncilLogger: singleton diagnostic logger).
I/O and the network are modelled by oracle parameters describing what the
environment did (file-read outcome, per-task results of the asyncio gather,
the API response of a single chat-completion call); everything else is a
direct translation of the Python control flow.
-/

namespace AICouncil

/-- Python `s.startswith(pre)`, over the character list of the string. -/
def pyStartsWith (s pre : String) : Bool :=
  pre.data.isPrefixOf s.data

/-- Python `s.endswith(suf)`, over the character list of the string. -/
def pyEndsWith (s suf : String) : Bool :=
  suf.data.isSuffixOf s.data

/-- Python `not s or not s.strip()`: the string is empty or consists of
whitespace only (equivalently, `s.strip()` is falsy). -/
def isBlank (s : String) : Bool :=
  s.data.all (fun c => c.isWhitespace)

/-- Python `pat in s` (substring containment). -/
def pyContains (s pat : String) : Bool :=
  decide (pat.data <:+: s.data)

/-- Python `s.lower()`, per character (ASCII-adequate for the classifier keywords). -/
def pyLower (s : String) : String :=
  ⟨s.data.map Char.toLower⟩

/-- models.py 11-18: the `ModelConfig` dataclass. -/
structure ModelConfig where
  name : String
  provider : String
  model_id : String
  code_name : String
  enabled : Bool
deriving DecidableEq

instance : Inhabited ModelConfig := ⟨⟨"", "", "", "", false⟩⟩

/-- The result of one task inside `asyncio.gather(*tasks, return_exceptions=True)`
(models.py 257-258): either the string `call_model` returned, or an exception
surfaced at the concurrency layer (carrying its `str(...)` rendering). -/
inductive TaskResult where
  | ok (text : String)
  | exn (msg : String)
deriving DecidableEq

/-- How the guarded gather of models.py 251-260 ends: all tasks settle within
the deadline (`completed`, one entry per task), `asyncio.wait_for` raises
`TimeoutError` (`timedOut`, carrying the per-task states that are then
discarded), or some other exception escapes the gather (`batchError`). -/
inductive BatchOutcome where
  | completed (results : List TaskResult)
  | timedOut (pending : List TaskResult)
  | batchError (msg : String)
deriving DecidableEq

/-- models.py 264-269: the text recorded for position i of the gather result. -/
def gatherEntryText (m : ModelConfig) : TaskResult → String
  | .ok text => text
  | .exn msg => "Error for model " ++ m.name ++ ": " ++ msg

/-- models.py 239-278: `ModelManager.call_models_parallel`.  The `.error` case
models the `ValueError` raised for an empty model list; every other path
returns a list of outcome strings. -/
def call_models_parallel (models : List ModelConfig) (batch : BatchOutcome) :
    Except String (List String) :=
  if models.isEmpty then
    .error "No models provided for parallel calls"
  else
    match batch with
    | .completed results => .ok (List.zipWith gatherEntryText models results)
    | .timedOut _ => .ok (models.map (fun m => "Timeout error for model " ++ m.name))
    | .batchError msg => .ok (models.map (fun m => "Error for model " ++ m.name ++ ": " ++ msg))

/-- The observable outcome of the single chat-completion request inside
`call_model` (models.py 195-206): the content string delivered by the
provider (`response.choices[0].message.content or ""`), or an exception from
the client (carrying its `str(...)` rendering). -/
inductive ApiResult where
  | success (content : String)
  | apiError (msg : String)
deriving DecidableEq

/-- models.py 208-216: the inner `except` classifies an API exception by
substring matching on its lowered message and re-raises a `ValueError` whose
message is returned here.  The `ValueError("Empty response received from
model")` raised at line 206 goes through this same handler. -/
def classifyApiError (cfg : ModelConfig) (msg : String) : String :=
  if pyContains (pyLower msg) "rate_limit" then
    "Rate limit exceeded for " ++ cfg.name
  else if pyContains (pyLower msg) "auth" then
    "Authentication failed for " ++ cfg.name
  else
    "API error for " ++ cfg.name ++ ": " ++ msg

/-- models.py 176-180: the prompt sent to the provider. -/
def call_model_prompt (context question : String) (is_synthesis : Bool) : String :=
  if is_synthesis then question
  else
    "Context: " ++ context ++ "\n\nQuestion: " ++ question ++
      "\n\nPlease provide a detailed, well-reasoned answer."

/-- models.py 157-237: `ModelManager.call_model`.  `clientOk p` tells whether
the client attribute for provider `p` is set (models.py 116-141); `api` is the
outcome of the one remote call.  Every exception raised inside the outer `try`
is caught at line 229 and rendered as `"Error from <name>: <str(e)>"`. -/
def call_model (cfg : ModelConfig) (context question : String) (is_synthesis : Bool)
    (clientOk : String → Bool) (api : ApiResult) : String :=
  if isBlank question then
    "Error from " ++ cfg.name ++ ": " ++ "Question cannot be empty"
  else if cfg.provider = "openai" ∨ cfg.provider = "openrouter" then
    if clientOk cfg.provider then
      match api with
      | .success content =>
        if isBlank content then
          "Error from " ++ cfg.name ++ ": " ++
            classifyApiError cfg "Empty response received from model"
        else content
      | .apiError msg =>
        "Error from " ++ cfg.name ++ ": " ++ classifyApiError cfg msg
    else
      "Error from " ++ cfg.name ++ ": " ++ "No client available for provider: " ++ cfg.provider
  else
    "Error from " ++ cfg.name ++ ": " ++ "Unknown provider: " ++ cfg.provider

/-- main.py 92-105: `AICouncilServer._validate_input`; `some msg` models the
`ValueError(msg)` raised, `none` models passing validation. -/
def validate_input (context question : String) : Option String :=
  if isBlank context then some "Context cannot be empty"
  else if isBlank question then some "Question cannot be empty"
  else if context.length > 10000 then some "Context too long (max 10,000 characters)"
  else if question.length > 5000 then some "Question too long (max 5,000 characters)"
  else none

/-- main.py 140: a fan-out outcome counts as valid unless it starts with
"Error from" or "Timeout error". -/
def is_valid_response (r : String) : Bool :=
  !(pyStartsWith r "Error from") && !(pyStartsWith r "Timeout error")

/-- Modelled from the spec: `synthesis.py` (`ResponseSynthesizer`) is not among
the provided sources.  Spec 4.4: `select` makes a uniform random choice among
the active backend set; the random draw is modelled by an index `r` reduced
modulo the list length.  Never empty given a non-empty input. -/
def select_synthesizer_model (models : List ModelConfig) (r : Nat) : ModelConfig :=
  models.getD (r % models.length) default

/-- Modelled from the spec: `synthesis.py` is not among the provided sources.
Spec 4.5: the synthesis prompt embeds the original question and context plus
every backend's labeled answer (error-marker text included verbatim). -/
def synthesis_prompt (context question : String) (responses : List String)
    (models : List ModelConfig) : String :=
  "Question: " ++ question ++ "\nContext: " ++ context ++
    String.join (List.zipWith (fun m r => "\nAnswer from " ++ m.name ++ ": " ++ r) models responses)

/-- Modelled from the spec: `synthesis.py` is not among the provided sources.
Spec 4.5: `synthesize_responses` picks the synthesizer via the selector (4.4,
random draw `rngSynth`), builds the synthesis prompt, and issues one more call
through the Backend Invoker in synthesis mode (no prompt wrapping), with the
invoker's failure semantics unchanged.  Returns the outcome text together with
the backend that actually performed the synthesis call. -/
def synthesize_responses (context question : String) (responses : List String)
    (models : List ModelConfig) (rngSynth : Nat) (clientOk : String → Bool)
    (api : ApiResult) : String × ModelConfig :=
  let chosen := select_synthesizer_model models rngSynth
  (call_model chosen context (synthesis_prompt context question responses models) true clientOk api,
    chosen)

/-- The success payload assembled at main.py 156-172 (the fields of the result
dictionary that do not report wall-clock timing or the log path). -/
structure ResultShape where
  models_used : List String
  synthesizer_model : String
  final_synthesis : String
  total_responses : Nat
  valid_responses : Nat
  failed_responses : Nat
  status : String
deriving DecidableEq

instance {ε α : Type} [DecidableEq ε] [DecidableEq α] : DecidableEq (Except ε α) := fun a b =>
  match a, b with
  | .error e, .error f =>
    if h : e = f then .isTrue (by rw [h]) else .isFalse (by intro hc; injection hc; exact h ‹_›)
  | .error _, .ok _ => .isFalse (by intro hc; exact Except.noConfusion hc)
  | .ok _, .error _ => .isFalse (by intro hc; exact Except.noConfusion hc)
  | .ok x, .ok y =>
    if h : x = y then .isTrue (by rw [h]) else .isFalse (by intro hc; injection hc; exact h ‹_›)

/-- Observable run of one `_process_ai_council` request: whether the fan-out
and the synthesis call were reached, which backend actually performed the
synthesis call, and the returned result (`.error` models the `ValueError`
raised, which `handle_call_tool` renders as a failed result). -/
structure Trace where
  parallelCalled : Bool
  synthesisCalled : Bool
  actualSynthesizer : Option ModelConfig
  result : Except String ResultShape
deriving DecidableEq

/-- main.py 107-179: `AICouncilServer._process_ai_council`.  `models` is what
`get_enabled_models` returned; `batch` is the fate of the gather; `rngSynth`
is the random draw made inside `synthesize_responses` and `rngReport` the
independent second draw made by the `select_synthesizer_model` call at
main.py 158; `synthApi` is the outcome of the synthesis API call. -/
def process_ai_council (context question : String) (models : List ModelConfig)
    (batch : BatchOutcome) (rngSynth rngReport : Nat) (clientOk : String → Bool)
    (synthApi : ApiResult) : Trace :=
  match validate_input context question with
  | some msg => ⟨false, false, none, .error msg⟩
  | none =>
    if models.isEmpty then
      ⟨false, false, none, .error "No enabled models found in configuration"⟩
    else
      match call_models_parallel models batch with
      | .error msg => ⟨true, false, none, .error msg⟩
      | .ok responses =>
        let valid := responses.filter (fun r => is_valid_response r)
        if valid.isEmpty then
          ⟨true, false, none, .error "All models failed to provide valid responses"⟩
        else
          let synth := synthesize_responses context question responses models rngSynth clientOk synthApi
          ⟨true, true, some synth.2, .ok {
            models_used := models.map (fun m => m.model_id)
            synthesizer_model := (select_synthesizer_model models rngReport).name
            final_synthesis := synth.1
            total_responses := responses.length
            valid_responses := valid.length
            failed_responses := responses.length - valid.length
            status := "success" }⟩

/-- One entry of the YAML `models` list as a Python dict restricted to the five
fields the code reads; `none` models an absent key. -/
structure RawModel where
  name : Option String
  provider : Option String
  model_id : Option String
  code_name : Option String
  enabled : Option Bool
deriving DecidableEq

/-- The YAML `settings` mapping restricted to the keys the code reads;
`none` models an absent key (`settings.get(key, default)` supplies defaults). -/
structure RawSettings where
  max_models : Option Int
  parallel_timeout : Option Int
  synthesis_model_selection : Option String
  log_level : Option String
deriving DecidableEq

/-- A parsed configuration mapping; `none` on a field models an absent
top-level section. -/
structure RawConfig where
  models : Option (List RawModel)
  settings : Option RawSettings
  api_keys : Option (List (String × String))
deriving DecidableEq

/-- models.py 61-75: `_get_default_config`. -/
def default_config : RawConfig where
  models := some []
  settings := some { max_models := some 3, parallel_timeout := some 120,
                     synthesis_model_selection := some "random", log_level := some "INFO" }
  api_keys := some [("openai_api_key", ""), ("openrouter_api_key", "")]

/-- What YAML parsing yields: a mapping of the shape the code expects, or any
other document (scalar, list, `None` from an empty file, or a mapping whose
`api_keys` entry is not itself a mapping) on which the attribute accesses of
models.py 44-45 raise `AttributeError`. -/
inductive YamlDoc where
  | mapping (cfg : RawConfig)
  | nonMapping
deriving DecidableEq

/-- The fate of reading and parsing the configuration source file:
`FileNotFoundError`, some other read error (unreadable), a `yaml.YAMLError`
from the parser, or a parsed document. -/
inductive SourceOutcome where
  | missing
  | unreadable (msg : String)
  | parseFail (msg : String)
  | parsed (doc : YamlDoc)
deriving DecidableEq

/-- models.py 44-48: environment-variable expansion of `api_keys` values of
the form `${VAR}`; `env` is `os.environ.get`, absent variables become "". -/
def expand_api_keys (env : String → Option String) :
    List (String × String) → List (String × String) :=
  List.map (fun kv =>
    if pyStartsWith kv.2 "$\x7b" && pyEndsWith kv.2 "\x7d" then
      (kv.1, (env ⟨(kv.2.data.drop 2).dropLast⟩).getD "")
    else kv)

/-- models.py 37-59: `_load_config`.  `FileNotFoundError` and any non-YAML
exception (including the `AttributeError` raised on a non-mapping document)
fall back to the defaults; only `yaml.YAMLError` raises
`ConfigValidationError` (modelled as `.error`). -/
def load_config (env : String → Option String) : SourceOutcome → Except String RawConfig
  | .missing => .ok default_config
  | .unreadable _ => .ok default_config
  | .parseFail msg => .error ("Invalid YAML configuration: " ++ msg)
  | .parsed .nonMapping => .ok default_config
  | .parsed (.mapping cfg) =>
    .ok { cfg with api_keys := cfg.api_keys.map (expand_api_keys env) }

/-- models.py 91-94: the first required field absent from a model entry, in
the order the loop checks them. -/
def requiredFieldMissing (m : RawModel) : Option String :=
  if m.name.isNone then some "name"
  else if m.provider.isNone then some "provider"
  else if m.model_id.isNone then some "model_id"
  else if m.code_name.isNone then some "code_name"
  else if m.enabled.isNone then some "enabled"
  else none

/-- models.py 89-104: the per-model validation loop, carrying the set of code
names seen so far and the entry index. -/
def validate_models : List RawModel → List String → Nat → Except String Unit
  | [], _, _ => .ok ()
  | m :: rest, seen, i =>
    match requiredFieldMissing m with
    | some f => .error ("Model " ++ toString i ++ " missing required field: " ++ f)
    | none =>
      if seen.contains (m.code_name.getD "") then
        .error ("Duplicate code name: " ++ m.code_name.getD "")
      else if m.provider.getD "" = "openai" ∨ m.provider.getD "" = "openrouter" then
        validate_models rest (m.code_name.getD "" :: seen) (i + 1)
      else .error ("Unknown provider: " ++ m.provider.getD "")

/-- models.py 106-114: settings validation (`max_models` and
`parallel_timeout` must be positive; absent keys default to 3 and 120). -/
def validate_settings (s : RawSettings) : Except String Unit :=
  if s.max_models.getD 3 < 1 then .error "max_models must be a positive integer"
  else if s.parallel_timeout.getD 120 < 1 then .error "parallel_timeout must be a positive integer"
  else .ok ()

/-- models.py 77-114: `_validate_config`. -/
def validate_config (cfg : RawConfig) : Except String Unit :=
  if cfg.models.isNone then .error "Missing required config section: models"
  else if cfg.settings.isNone then .error "Missing required config section: settings"
  else if cfg.api_keys.isNone then .error "Missing required config section: api_keys"
  else do
    validate_models (cfg.models.getD []) [] 0
    validate_settings (cfg.settings.getD ⟨none, none, none, none⟩)

/-- The `max_models` value `get_enabled_models` reads at models.py 146. -/
def config_max_models (cfg : RawConfig) : Int :=
  (cfg.settings.getD ⟨none, none, none, none⟩).max_models.getD 3

/-- models.py 151: `ModelConfig(**model_data)` succeeds exactly when all five
fields are present. -/
def toModelConfig (m : RawModel) : Option ModelConfig :=
  match m.name, m.provider, m.model_id, m.code_name, m.enabled with
  | some n, some p, some mid, some cn, some e => some ⟨n, p, mid, cn, e⟩
  | _, _, _, _, _ => none

/-- The `ModelConfig` built from an entry that has all five fields. -/
def mkConfig (m : RawModel) : ModelConfig :=
  ⟨m.name.getD "", m.provider.getD "", m.model_id.getD "", m.code_name.getD "", m.enabled.getD false⟩

/-- models.py 148-154: the accumulation loop of `get_enabled_models`; an entry
is appended when it is enabled and the cap is not yet reached; an entry whose
`ModelConfig` construction fails is logged and skipped. -/
def get_enabled_models_go (maxModels : Int) : List RawModel → List ModelConfig → List ModelConfig
  | [], acc => acc
  | m :: rest, acc =>
    if m.enabled.getD false ∧ (acc.length : Int) < maxModels then
      match toModelConfig m with
      | some c => get_enabled_models_go maxModels rest (acc ++ [c])
      | none => get_enabled_models_go maxModels rest acc
    else get_enabled_models_go maxModels rest acc

/-- models.py 143-155: `ModelManager.get_enabled_models`. -/
def get_enabled_models (cfg : RawConfig) : List ModelConfig :=
  get_enabled_models_go (config_max_models cfg) (cfg.models.getD []) []

/-- logger.py 12-13: the class-level singleton slot of `AICouncilLogger`
(`_instance` with its initialized log-file path, or not yet created). -/
structure LoggerState where
  instancePath : Option String
deriving DecidableEq

/-- logger.py 22: `timestamp.replace(":", "-").replace(".", "-")`. -/
def sanitizeTimestamp (ts : String) : String :=
  ⟨ts.data.map (fun c => if c = ':' ∨ c = '.' then '-' else c)⟩

/-- logger.py 23-24: the per-session log file path. -/
def logFileName (ts tmpdir : String) : String :=
  tmpdir ++ "/ai-council-" ++ sanitizeTimestamp ts ++ ".log"

/-- One evaluation of `AICouncilLogger()` (logger.py 15-26): `__new__` reuses
the class-level instance when present, and `__init__` creates the log file
path only on the first construction; the returned string is what
`get_log_path` (logger.py 57-59) yields on the returned instance. -/
def constructLogger (st : LoggerState) (ts tmpdir : String) : LoggerState × String :=
  match st.instancePath with
  | some p => (st, p)
  | none => (⟨some (logFileName ts tmpdir)⟩, logFileName ts tmpdir)

/-- The paths returned by a sequence of `AICouncilLogger()` constructions,
each at its own current timestamp and TMPDIR. -/
def runLoggerConstructions (st : LoggerState) : List (String × String) → List String
  | [] => []
  | e :: rest =>
    let r := constructLogger st e.1 e.2
    r.2 :: runLoggerConstructions r.1 rest

/-- The text position `i` of the fan-out output receives, as a function of the
backend at position `i` and the batch fate. -/
def outcome_at (batch : BatchOutcome) (m : ModelConfig) (i : Nat) : String :=
  match batch with
  | .completed results => gatherEntryText m (results.getD i (.ok ""))
  | .timedOut _ => "Timeout error for model " ++ m.name
  | .batchError msg => "Error for model " ++ m.name ++ ": " ++ msg

/-- A raw model entry with all five fields present. -/
def rawModel (n p mid cn : String) (e : Bool) : RawModel :=
  ⟨some n, some p, some mid, some cn, some e⟩

/-- Sample configuration: five backends, the second and the last disabled,
`max_models = 3`. -/
def demoModels : List RawModel :=
  [rawModel "M1" "openai" "id1" "m1" true,
   rawModel "M2" "openai" "id2" "m2" false,
   rawModel "M3" "openrouter" "id3" "m3" true,
   rawModel "M4" "openai" "id4" "m4" true,
   rawModel "M5" "openrouter" "id5" "m5" true]

/-- Sample configuration wrapping `demoModels`. -/
def demoConfig : RawConfig :=
  { models := some demoModels
    settings := some ⟨some 3, some 120, some "random", some "INFO"⟩
    api_keys := some [("openai_api_key", "k")] }

/-- Two raw models sharing the code name "same". -/
def dupModels : List RawModel :=
  [rawModel "A" "openai" "ida" "same" true,
   rawModel "B" "openai" "idb" "same" true]

/-- Sample configuration wrapping `dupModels`. -/
def dupConfig : RawConfig :=
  { models := some dupModels
    settings := some ⟨some 3, some 120, none, none⟩
    api_keys := some [] }

/-- The statement of claim C8 as written: the loader yields the default
configuration exactly when the source is missing or unreadable. -/
def defaults_exactly_on_missing_or_unreadable : Prop :=
  ∀ (env : String → Option String) (s : SourceOutcome),
    load_config env s = .ok default_config ↔
      (s = .missing ∨ ∃ msg, s = .unreadable msg)

/-- Sample backend used to instantiate the general theorems. -/
def mAlpha : ModelConfig := ⟨"Alpha", "openai", "gpt-alpha", "alpha", true⟩

/-- Second sample backend used to instantiate the general theorems. -/
def mBeta : ModelConfig := ⟨"Beta", "openrouter", "beta-model", "beta", true⟩

/- ------------------------------------------------------------------ -/
/- Helper lemmas.                                                     -/
/- ------------------------------------------------------------------ -/

theorem pyStartsWith_append (p s : String) : pyStartsWith (p ++ s) p = true := by
  simp [pyStartsWith, String.data_append, List.isPrefixOf_iff_prefix, List.prefix_append]

theorem errForModel_not_errFrom (s : String) :
    pyStartsWith ("Error for model " ++ s) "Error from" = false := by
  have h : ("Error for model " ++ s).data
      = 'E' :: 'r' :: 'r' :: 'o' :: 'r' :: ' ' :: 'f' :: 'o' :: 'r' :: ' ' :: 'm' :: 'o' :: 'd' :: 'e' :: 'l' :: ' ' :: s.data := by
    rw [String.data_append]; rfl
  have h2 : "Error from".data = ['E','r','r','o','r',' ','f','r','o','m'] := rfl
  simp only [pyStartsWith, h, h2]
  simp [List.isPrefixOf]

theorem errForModel_not_timeoutMarker (s : String) :
    pyStartsWith ("Error for model " ++ s) "Timeout error" = false := by
  have h : ("Error for model " ++ s).data
      = 'E' :: 'r' :: 'r' :: 'o' :: 'r' :: ' ' :: 'f' :: 'o' :: 'r' :: ' ' :: 'm' :: 'o' :: 'd' :: 'e' :: 'l' :: ' ' :: s.data := by
    rw [String.data_append]; rfl
  have h2 : "Timeout error".data = ['T','i','m','e','o','u','t',' ','e','r','r','o','r'] := rfl
  simp only [pyStartsWith, h, h2]
  simp [List.isPrefixOf]

/-- Text of the shape produced for a gather-level exception is counted VALID
by the check at main.py 140. -/
theorem errForModel_is_valid (s : String) :
    is_valid_response ("Error for model " ++ s) = true := by
  simp [is_valid_response, errForModel_not_errFrom, errForModel_not_timeoutMarker]

theorem isEmpty_false_of_ne_nil {α : Type} {l : List α} (h : l ≠ []) : l.isEmpty = false := by
  cases l with
  | nil => exact absurd rfl h
  | cons a t => rfl

/- ------------------------------------------------------------------ -/
/- Claim theorems.                                                    -/
/- ------------------------------------------------------------------ -/

/-- Claim C1: for every non-empty list of backends, `call_models_parallel`
returns a list of outcome texts of the same length as the input, and the
outcome at position `i` is determined by the backend at position `i` (its
answer, its converted exception, its uniform timeout or batch-error marker),
for any mix of per-backend success, failure, and batch timeout. -/
theorem parallel_ordered_same_length (models : List ModelConfig) (batch : BatchOutcome)
    (hne : models ≠ [])
    (hlen : ∀ results, batch = .completed results → results.length = models.length) :
    ∃ out, call_models_parallel models batch = .ok out ∧
      out.length = models.length ∧
      ∀ i, i < models.length →
        out.getD i "" = outcome_at batch (models.getD i default) i := by
  have hme : models.isEmpty = false := isEmpty_false_of_ne_nil hne
  cases batch with
  | completed results =>
    have hl := hlen results rfl
    refine ⟨List.zipWith gatherEntryText models results, ?_, ?_, ?_⟩
    · simp [call_models_parallel, hme]
    · simp [List.length_zipWith, hl]
    · intro i hi
      have h1 : i < (List.zipWith gatherEntryText models results).length := by
        simp [List.length_zipWith, hl, hi]
      have h2 : i < results.length := by rw [hl]; exact hi
      rw [List.getD_eq_getElem _ _ h1, List.getElem_zipWith]
      simp only [outcome_at]
      rw [List.getD_eq_getElem _ _ hi, List.getD_eq_getElem _ _ h2]
  | timedOut pending =>
    refine ⟨models.map (fun m => "Timeout error for model " ++ m.name), ?_, ?_, ?_⟩
    · simp [call_models_parallel, hme]
    · simp
    · intro i hi
      have h1 : i < (models.map (fun m => "Timeout error for model " ++ m.name)).length := by
        simpa using hi
      rw [List.getD_eq_getElem _ _ h1, List.getElem_map]
      simp only [outcome_at]
      rw [List.getD_eq_getElem _ _ hi]
  | batchError msg =>
    refine ⟨models.map (fun m => "Error for model " ++ m.name ++ ": " ++ msg), ?_, ?_, ?_⟩
    · simp [call_models_parallel, hme]
    · simp
    · intro i hi
      have h1 : i < (models.map (fun m => "Error for model " ++ m.name ++ ": " ++ msg)).length := by
        simpa using hi
      rw [List.getD_eq_getElem _ _ h1, List.getElem_map]
      simp only [outcome_at]
      rw [List.getD_eq_getElem _ _ hi]

/-- Witness for C1 at a concrete mixed batch: one success, one exception. -/
theorem parallel_ordered_same_length_witness :
    ∃ out, call_models_parallel [mAlpha, mBeta]
        (.completed [TaskResult.ok "fine answer", TaskResult.exn "socket closed"]) = .ok out ∧
      out.length = 2 ∧
      ∀ i, i < 2 →
        out.getD i "" = outcome_at
          (.completed [TaskResult.ok "fine answer", TaskResult.exn "socket closed"])
          ([mAlpha, mBeta].getD i default) i := by
  have h := parallel_ordered_same_length [mAlpha, mBeta]
    (.completed [TaskResult.ok "fine answer", TaskResult.exn "socket closed"])
    (by decide) (by intro rs hr; injection hr with hr2; rw [← hr2]; rfl)
  simpa using h

/-- Claim C2: when the aggregate deadline elapses, every backend in the batch
is reported with the uniform per-backend timeout marker, whatever the
per-task states (`pending`) were at that moment — so a backend whose own call
had already succeeded does not keep its answer. -/
theorem timed_out_batch_uniform_markers (models : List ModelConfig) (pending : List TaskResult)
    (hne : models ≠ []) :
    call_models_parallel models (.timedOut pending) =
      .ok (models.map (fun m => "Timeout error for model " ++ m.name)) := by
  have hme : models.isEmpty = false := isEmpty_false_of_ne_nil hne
  simp [call_models_parallel, hme]

/-- Witness for C2: both backends had already produced answers when the
deadline fired, and both are nevertheless reported as timeouts. -/
theorem timed_out_batch_uniform_markers_witness :
    call_models_parallel [mAlpha, mBeta]
        (.timedOut [TaskResult.ok "already finished", TaskResult.ok "also finished"]) =
      .ok ["Timeout error for model Alpha", "Timeout error for model Beta"] := by
  rw [timed_out_batch_uniform_markers [mAlpha, mBeta]
    [TaskResult.ok "already finished", TaskResult.ok "also finished"] (by decide)]
  rfl

/-- Claim C5 counterexample: a gather-level exception is converted to
`"Error for model <name>: <msg>"`, which is NOT the invoker-failure format
`"Error from <name>: ..."`, and which the downstream validity check of
main.py 140 classifies as a VALID response rather than a failed one. -/
theorem gather_exception_counted_valid :
    call_models_parallel [mAlpha] (.completed [TaskResult.exn "boom"]) =
      .ok ["Error for model Alpha: boom"] ∧
    pyStartsWith "Error for model Alpha: boom" "Error from" = false ∧
    is_valid_response "Error for model Alpha: boom" = true := by
  refine ⟨rfl, by decide, by decide⟩

/-- Claim C5 (amended): an individual task that rejects with an unexpected
exception is caught and converted to error text keyed by that backend's
identity — of the form `"Error for model <name>: <msg>"`, which differs from
the invoker-failure format `"Error from <name>: ..."` — and the batch as a
whole still returns one text per backend; the downstream failure detection of
main.py 140, which matches the prefixes "Error from" and "Timeout error",
therefore counts such an outcome as VALID, not as failed. -/
theorem gather_exception_converted_keyed (models : List ModelConfig)
    (results : List TaskResult) (i : Nat) (msg : String)
    (hne : models ≠ []) (hlen : results.length = models.length)
    (hi : i < models.length) (hexn : results.getD i (.ok "") = .exn msg) :
    ∃ out, call_models_parallel models (.completed results) = .ok out ∧
      out.length = models.length ∧
      out.getD i "" = "Error for model " ++ (models.getD i default).name ++ ": " ++ msg ∧
      is_valid_response (out.getD i "") = true := by
  obtain ⟨out, hcall, hout, hat⟩ := parallel_ordered_same_length models (.completed results)
    hne (by intro rs hr; injection hr with hr2; rw [← hr2]; exact hlen)
  refine ⟨out, hcall, hout, ?_⟩
  have h1 := hat i hi
  rw [h1]
  simp only [outcome_at, hexn, gatherEntryText]
  refine ⟨trivial, ?_⟩
  rw [String.append_assoc, String.append_assoc]
  exact errForModel_is_valid _

/-- Witness for the amended C5 at a concrete batch. -/
theorem gather_exception_converted_keyed_witness :
    ∃ out, call_models_parallel [mAlpha, mBeta]
        (.completed [TaskResult.ok "fine", TaskResult.exn "boom"]) = .ok out ∧
      out.length = 2 ∧
      out.getD 1 "" = "Error for model Beta: boom" ∧
      is_valid_response (out.getD 1 "") = true := by
  have h := gather_exception_converted_keyed [mAlpha, mBeta]
    [TaskResult.ok "fine", TaskResult.exn "boom"] 1 "boom"
    (by decide) (by decide) (by decide) (by decide)
  simpa using h

/-- Every invoker failure string starts with the identifiable error marker of
its backend. -/
theorem errFrom_prefixed (n msg : String) :
    pyStartsWith ("Error from " ++ n ++ ": " ++ msg) ("Error from " ++ n ++ ": ") = true := by
  have h : "Error from " ++ n ++ ": " ++ msg = ("Error from " ++ n ++ ": ") ++ msg := by
    simp [String.append_assoc]
  rw [h]
  exact pyStartsWith_append _ _

/-- Claim C3: `call_model` never raises: for every backend, input, client
state and API outcome it returns a string, which is either the non-blank
response content (a success) or text prefixed `"Error from <name>: "` — and
this covers the empty question, the unknown or unconfigured provider, every
classified API error, and the blank response body, which is a failure, never
a success. -/
theorem call_model_never_raises (cfg : ModelConfig) (context question : String)
    (is_synthesis : Bool) (clientOk : String → Bool) (api : ApiResult) :
    (∃ content, api = .success content ∧ isBlank content = false ∧
        call_model cfg context question is_synthesis clientOk api = content) ∨
      pyStartsWith (call_model cfg context question is_synthesis clientOk api)
        ("Error from " ++ cfg.name ++ ": ") = true := by
  by_cases h1 : isBlank question = true
  · right
    rw [call_model.eq_def, if_pos h1]
    exact errFrom_prefixed _ _
  · by_cases h2 : cfg.provider = "openai" ∨ cfg.provider = "openrouter"
    · by_cases h3 : clientOk cfg.provider = true
      · cases api with
        | success content =>
          by_cases h4 : isBlank content = true
          · right
            rw [call_model.eq_def, if_neg h1, if_pos h2, if_pos h3]
            simp only [h4, if_true]
            exact errFrom_prefixed _ _
          · left
            refine ⟨content, rfl, by simpa using h4, ?_⟩
            rw [call_model.eq_def, if_neg h1, if_pos h2, if_pos h3]
            simp only [h4, if_false]
            simp [h4]
        | apiError msg =>
          right
          rw [call_model.eq_def, if_neg h1, if_pos h2, if_pos h3]
          exact errFrom_prefixed _ _
      · right
        rw [call_model.eq_def, if_neg h1, if_pos h2, if_neg h3]
        rw [String.append_assoc]
        exact errFrom_prefixed _ _
    · right
      rw [call_model.eq_def, if_neg h1, if_neg h2]
      rw [String.append_assoc]
      exact errFrom_prefixed _ _

/-- `_validate_input` passes exactly when neither input is blank and both
lengths are within bounds. -/
theorem validate_input_eq_none_iff (context question : String) :
    validate_input context question = none ↔
      isBlank context = false ∧ isBlank question = false ∧
        context.length ≤ 10000 ∧ question.length ≤ 5000 := by
  unfold validate_input
  split
  · next hb => simp_all
  · split
    · next hb => simp_all
    · split
      · next hl => simp_all
      · split
        · next hl => simp_all
        · next h1 h2 h3 h4 => simp_all

/-- Claim C6: a blank (empty after trimming) question or context, an
over-long context or question, or the absence of any enabled backend each
terminate the request with an error before the fan-out or the synthesis call
is made. -/
theorem validation_failures_stop_early (context question : String)
    (models : List ModelConfig) (batch : BatchOutcome) (rngSynth rngReport : Nat)
    (clientOk : String → Bool) (synthApi : ApiResult)
    (h : isBlank question = true ∨ isBlank context = true ∨
         context.length > 10000 ∨ question.length > 5000 ∨ models = []) :
    ∃ msg,
      (process_ai_council context question models batch rngSynth rngReport clientOk synthApi).result
          = .error msg ∧
      (process_ai_council context question models batch rngSynth rngReport clientOk synthApi).parallelCalled
          = false ∧
      (process_ai_council context question models batch rngSynth rngReport clientOk synthApi).synthesisCalled
          = false := by
  cases hv : validate_input context question with
  | some msg =>
    exact ⟨msg, by simp [process_ai_council, hv]⟩
  | none =>
    have hall := (validate_input_eq_none_iff context question).mp hv
    have hm : models = [] := by
      rcases h with h | h | h | h | h
      · rw [h] at hall; simp at hall
      · rw [h] at hall; simp at hall
      · omega
      · omega
      · exact h
    subst hm
    exact ⟨"No enabled models found in configuration", by simp [process_ai_council, hv]⟩

/-- Witness for C6: an all-whitespace question is rejected with no calls. -/
theorem validation_failures_stop_early_witness :
    ∃ msg,
      (process_ai_council "some context" "  " [mAlpha] (.completed [TaskResult.ok "a"]) 0 0
          (fun _ => true) (.success "s")).result = .error msg ∧
      (process_ai_council "some context" "  " [mAlpha] (.completed [TaskResult.ok "a"]) 0 0
          (fun _ => true) (.success "s")).parallelCalled = false ∧
      (process_ai_council "some context" "  " [mAlpha] (.completed [TaskResult.ok "a"]) 0 0
          (fun _ => true) (.success "s")).synthesisCalled = false :=
  validation_failures_stop_early "some context" "  " [mAlpha] (.completed [TaskResult.ok "a"])
    0 0 (fun _ => true) (.success "s") (Or.inl (by decide))

/-- Claim C4: once validation passed and the fan-out returned, the request
terminates with the "all failed" error and no synthesis call when every
outcome is failure-marker text, and proceeds to synthesis (reaching a
`status: "success"` result) when at least one outcome is valid. -/
theorem all_failed_stops_before_synthesis (context question : String)
    (models : List ModelConfig) (batch : BatchOutcome) (rngSynth rngReport : Nat)
    (clientOk : String → Bool) (synthApi : ApiResult) (responses : List String)
    (hv : validate_input context question = none) (hne : models ≠ [])
    (hpar : call_models_parallel models batch = .ok responses) :
    ((∀ r ∈ responses, is_valid_response r = false) →
        (process_ai_council context question models batch rngSynth rngReport clientOk synthApi).result
            = .error "All models failed to provide valid responses" ∧
        (process_ai_council context question models batch rngSynth rngReport clientOk synthApi).synthesisCalled
            = false) ∧
    ((∃ r ∈ responses, is_valid_response r = true) →
        (process_ai_council context question models batch rngSynth rngReport clientOk synthApi).synthesisCalled
            = true ∧
        ∃ res,
          (process_ai_council context question models batch rngSynth rngReport clientOk synthApi).result
              = .ok res ∧ res.status = "success") := by
  have hme : models.isEmpty = false := isEmpty_false_of_ne_nil hne
  constructor
  · intro hall
    have hfe : responses.filter (fun r => is_valid_response r) = [] :=
      List.filter_eq_nil_iff.mpr (by intro a ha; simp [hall a ha])
    constructor <;> simp [process_ai_council, hv, hme, hpar, hfe]
  · rintro ⟨r, hr, hvr⟩
    have hmem : r ∈ responses.filter (fun r => is_valid_response r) :=
      List.mem_filter.mpr ⟨hr, hvr⟩
    have hfe : (responses.filter (fun r => is_valid_response r)).isEmpty = false :=
      isEmpty_false_of_ne_nil (List.ne_nil_of_mem hmem)
    constructor
    · simp [process_ai_council, hv, hme, hpar, hfe]
    · refine ⟨{ models_used := models.map (fun m => m.model_id),
                synthesizer_model := (select_synthesizer_model models rngReport).name,
                final_synthesis := (synthesize_responses context question responses models rngSynth clientOk synthApi).1,
                total_responses := responses.length,
                valid_responses := (responses.filter (fun r => is_valid_response r)).length,
                failed_responses := responses.length - (responses.filter (fun r => is_valid_response r)).length,
                status := "success" }, ?_, rfl⟩
      simp [process_ai_council, hv, hme, hpar, hfe]

/-- Witness for C4, both directions: one batch where both backends failed,
one batch where one backend succeeded. -/
theorem all_failed_stops_before_synthesis_witness :
    ((process_ai_council "ctx" "q" [mAlpha, mBeta] (.timedOut []) 0 0 (fun _ => true)
        (.success "synth")).result = .error "All models failed to provide valid responses" ∧
      (process_ai_council "ctx" "q" [mAlpha, mBeta] (.timedOut []) 0 0 (fun _ => true)
        (.success "synth")).synthesisCalled = false) ∧
    ((process_ai_council "ctx" "q" [mAlpha, mBeta]
        (.completed [TaskResult.ok "good answer", TaskResult.exn "boom"]) 0 0 (fun _ => true)
        (.success "synth")).synthesisCalled = true) := by
  constructor
  · exact (all_failed_stops_before_synthesis "ctx" "q" [mAlpha, mBeta] (.timedOut []) 0 0
      (fun _ => true) (.success "synth")
      ["Timeout error for model Alpha", "Timeout error for model Beta"]
      rfl (by decide) rfl).1 (by decide)
  · exact ((all_failed_stops_before_synthesis "ctx" "q" [mAlpha, mBeta]
      (.completed [TaskResult.ok "good answer", TaskResult.exn "boom"]) 0 0
      (fun _ => true) (.success "synth")
      ["good answer", "Error for model Beta: boom"]
      rfl (by decide) rfl).2 ⟨"good answer", by decide, by decide⟩).1

/-- Claim C9 is refuted by the code (bug at main.py 158): the reported
`synthesizer_model` field comes from a second, independent selector draw, not
from the backend that performed the synthesis call.  At this concrete request
the synthesis call is performed by Alpha (first draw 0) while the result
reports Beta (second draw 1). -/
theorem reported_synthesizer_differs_from_actual :
    (process_ai_council "ctx" "q" [mAlpha, mBeta]
        (.completed [TaskResult.ok "a1", TaskResult.ok "a2"]) 0 1 (fun _ => true)
        (.success "synthesized text")).actualSynthesizer = some mAlpha ∧
    (process_ai_council "ctx" "q" [mAlpha, mBeta]
        (.completed [TaskResult.ok "a1", TaskResult.ok "a2"]) 0 1 (fun _ => true)
        (.success "synthesized text")).result = .ok
      { models_used := ["gpt-alpha", "beta-model"]
        synthesizer_model := "Beta"
        final_synthesis := "synthesized text"
        total_responses := 2
        valid_responses := 2
        failed_responses := 0
        status := "success" } ∧
    mAlpha.name ≠ "Beta" := by
  refine ⟨rfl, rfl, by decide⟩

/-- Once the singleton instance exists, every further construction returns
its path unchanged. -/
theorem runLogger_after_init (p : String) (events : List (String × String)) :
    runLoggerConstructions ⟨some p⟩ events = events.map (fun _ => p) := by
  induction events with
  | nil => rfl
  | cons e rest ih => simp [runLoggerConstructions, constructLogger, ih]

/-- Claim C10: the logger is a process-wide singleton: in any sequence of
`AICouncilLogger()` constructions (each with its own current timestamp and
TMPDIR), every returned `get_log_path` value equals the path created by the
first construction. -/
theorem logger_singleton_same_path (e : String × String) (events : List (String × String)) :
    ∀ p ∈ runLoggerConstructions ⟨none⟩ (e :: events), p = logFileName e.1 e.2 := by
  intro p hp
  have h : runLoggerConstructions ⟨none⟩ (e :: events)
      = logFileName e.1 e.2 :: events.map (fun _ => logFileName e.1 e.2) := by
    simp [runLoggerConstructions, constructLogger, runLogger_after_init]
  rw [h] at hp
  rcases List.mem_cons.mp hp with h1 | h1
  · exact h1
  · rcases List.mem_map.mp h1 with ⟨a, _, h2⟩
    exact h2.symm

/-- A model entry with no missing required field has all five fields, so
`ModelConfig(**model_data)` succeeds and builds `mkConfig`. -/
theorem toModelConfig_eq_mkConfig (m : RawModel) (h : requiredFieldMissing m = none) :
    toModelConfig m = some (mkConfig m) := by
  rcases m with ⟨n, p, mid, cn, e⟩
  cases n <;> cases p <;> cases mid <;> cases cn <;> cases e <;>
    simp_all [requiredFieldMissing, toModelConfig, mkConfig]

theorem code_name_some_of_fields (m : RawModel) (h : requiredFieldMissing m = none) :
    m.code_name = some (m.code_name.getD "") := by
  rcases m with ⟨n, p, mid, cn, e⟩
  cases n <;> cases p <;> cases mid <;> cases cn <;> cases e <;>
    simp_all [requiredFieldMissing]

/-- A successful run of the validation loop certifies that every entry has
all required fields. -/
theorem validate_models_ok_fields : ∀ (ms : List RawModel) (seen : List String) (i : Nat),
    validate_models ms seen i = .ok () → ∀ m ∈ ms, requiredFieldMissing m = none := by
  intro ms
  induction ms with
  | nil => intro seen i _ m hm; cases hm
  | cons a rest ih =>
    intro seen i h m hm
    rw [validate_models] at h
    cases hrf : requiredFieldMissing a with
    | some f => rw [hrf] at h; cases h
    | none =>
      rw [hrf] at h
      by_cases hc : seen.contains (a.code_name.getD "") = true
      · rw [if_pos hc] at h; cases h
      · rw [if_neg hc] at h
        by_cases hp : a.provider.getD "" = "openai" ∨ a.provider.getD "" = "openrouter"
        · rw [if_pos hp] at h
          rcases List.mem_cons.mp hm with rfl | hm2
          · exact hrf
          · exact ih _ _ h m hm2
        · rw [if_neg hp] at h; cases h

/-- A successful run of the validation loop certifies that the code names of
the entries are pairwise distinct and avoid the names already seen. -/
theorem validate_models_ok_nodup : ∀ (ms : List RawModel) (seen : List String) (i : Nat),
    validate_models ms seen i = .ok () →
    (ms.map (fun m => m.code_name)).Nodup ∧
      ∀ m ∈ ms, ∀ cn, m.code_name = some cn → seen.contains cn = false := by
  intro ms
  induction ms with
  | nil => intro seen i _; exact ⟨List.nodup_nil, by intro m hm; cases hm⟩
  | cons a rest ih =>
    intro seen i h
    rw [validate_models] at h
    cases hrf : requiredFieldMissing a with
    | some f => rw [hrf] at h; cases h
    | none =>
      rw [hrf] at h
      by_cases hc : seen.contains (a.code_name.getD "") = true
      · rw [if_pos hc] at h; cases h
      · rw [if_neg hc] at h
        by_cases hp : a.provider.getD "" = "openai" ∨ a.provider.getD "" = "openrouter"
        · rw [if_pos hp] at h
          obtain ⟨hnd, hseen⟩ := ih _ _ h
          have hacn := code_name_some_of_fields a hrf
          constructor
          · rw [List.map_cons, List.nodup_cons]
            refine ⟨?_, hnd⟩
            intro hmem
            rcases List.mem_map.mp hmem with ⟨b, hb, hbeq⟩
            have hbcn : b.code_name = some (a.code_name.getD "") := hbeq.trans hacn
            have := hseen b hb (a.code_name.getD "") hbcn
            rw [List.contains_cons] at this
            simp at this
          · intro m hm cn hcn
            rcases List.mem_cons.mp hm with rfl | hm2
            · rw [hacn] at hcn
              injection hcn with hcn2
              rw [← hcn2]
              exact Bool.not_eq_true _ ▸ (by simpa using hc)
            · have := hseen m hm2 cn hcn
              rw [List.contains_cons] at this
              simp only [Bool.or_eq_false_iff] at this
              exact this.2
        · rw [if_neg hp] at h; cases h

/-- The accumulation loop of `get_enabled_models` takes one enabled entry. -/
theorem go_cons_enabled (maxModels : Int) (m : RawModel) (rest : List RawModel)
    (acc : List ModelConfig) (hm : requiredFieldMissing m = none)
    (he : m.enabled.getD false = true) (hlt : (acc.length : Int) < maxModels) :
    get_enabled_models_go maxModels (m :: rest) acc
      = get_enabled_models_go maxModels rest (acc ++ [mkConfig m]) := by
  rw [get_enabled_models_go, if_pos ⟨he, hlt⟩, toModelConfig_eq_mkConfig m hm]

/-- The accumulation loop of `get_enabled_models` skips an entry that is
disabled or arrives after the cap is reached. -/
theorem go_cons_stop (maxModels : Int) (m : RawModel) (rest : List RawModel)
    (acc : List ModelConfig)
    (hcond : ¬(m.enabled.getD false = true ∧ (acc.length : Int) < maxModels)) :
    get_enabled_models_go maxModels (m :: rest) acc
      = get_enabled_models_go maxModels rest acc := by
  rw [get_enabled_models_go, if_neg hcond]

/-- On a list of well-formed entries, the accumulation loop appends exactly
the first enabled entries up to the remaining capacity, in order. -/
theorem get_enabled_models_go_spec (maxModels : Int) :
    ∀ (ms : List RawModel) (acc : List ModelConfig),
      (∀ m ∈ ms, requiredFieldMissing m = none) →
      get_enabled_models_go maxModels ms acc =
        acc ++ ((ms.filter (fun m => m.enabled.getD false)).map mkConfig).take
          (maxModels.toNat - acc.length) := by
  intro ms
  induction ms with
  | nil => intro acc _; simp [get_enabled_models_go]
  | cons m rest ih =>
    intro acc h
    have hm := h m (List.mem_cons_self m rest)
    have hrest : ∀ x ∈ rest, requiredFieldMissing x = none :=
      fun x hx => h x (List.mem_cons_of_mem m hx)
    by_cases he : m.enabled.getD false = true
    · by_cases hlt : (acc.length : Int) < maxModels
      · have hltn : acc.length < maxModels.toNat := by omega
        rw [go_cons_enabled maxModels m rest acc hm he hlt, ih _ hrest]
        rw [show List.filter (fun x => x.enabled.getD false) (m :: rest)
              = m :: List.filter (fun x => x.enabled.getD false) rest from
            List.filter_cons_of_pos he]
        rw [List.map_cons]
        have hk : maxModels.toNat - acc.length = (maxModels.toNat - (acc.length + 1)) + 1 := by
          omega
        rw [hk, List.take_succ_cons]
        have hlen : (acc ++ [mkConfig m]).length = acc.length + 1 := by simp
        rw [hlen]
        simp [List.append_assoc]
      · have hk : maxModels.toNat - acc.length = 0 := by omega
        rw [go_cons_stop maxModels m rest acc (by intro hcond; exact hlt hcond.2), ih _ hrest]
        rw [show List.filter (fun x => x.enabled.getD false) (m :: rest)
              = m :: List.filter (fun x => x.enabled.getD false) rest from
            List.filter_cons_of_pos he]
        rw [List.map_cons, hk, List.take_zero, List.take_zero, List.append_nil]
    · rw [go_cons_stop maxModels m rest acc (by intro hcond; exact he hcond.1), ih _ hrest]
      rw [show List.filter (fun x => x.enabled.getD false) (m :: rest)
            = List.filter (fun x => x.enabled.getD false) rest from
          List.filter_cons_of_neg he]

/-- A validated configuration certifies a successful validation loop on its
model list. -/
theorem validate_config_ok_models (cfg : RawConfig) (ms : List RawModel)
    (hm : cfg.models = some ms) (hok : validate_config cfg = .ok ()) :
    validate_models ms [] 0 = .ok () := by
  unfold validate_config at hok
  split_ifs at hok with h1 h2 h3
  rw [hm] at hok
  simp only [Option.getD_some] at hok
  cases hvm : validate_models ms [] 0 with
  | error e => rw [hvm] at hok; cases hok
  | ok u => rfl

/-- Claim C7: on every validated configuration, `get_enabled_models` returns
exactly the first `max_models` enabled entries, in declaration order; and a
model list containing two entries with the same code name makes configuration
validation fail with a ConfigValidationError. -/
theorem enabled_models_and_duplicate_code_names (cfg cfgDup : RawConfig)
    (ms msDup : List RawModel) :
    (cfg.models = some ms → validate_config cfg = .ok () →
      get_enabled_models cfg
        = ((ms.filter (fun m => m.enabled.getD false)).map mkConfig).take
            (config_max_models cfg).toNat) ∧
    (cfgDup.models = some msDup → ¬ (msDup.map (fun m => m.code_name)).Nodup →
      ∃ e, validate_config cfgDup = .error e) := by
  constructor
  · intro hm hok
    have hfields := validate_models_ok_fields ms [] 0 (validate_config_ok_models cfg ms hm hok)
    unfold get_enabled_models
    rw [hm]
    simp only [Option.getD_some]
    rw [get_enabled_models_go_spec (config_max_models cfg) ms [] hfields]
    simp
  · intro hm hdup
    unfold validate_config
    by_cases h1 : cfgDup.models.isNone = true
    · rw [hm] at h1; cases h1
    · rw [if_neg h1]
      by_cases h2 : cfgDup.settings.isNone = true
      · rw [if_pos h2]; exact ⟨_, rfl⟩
      · rw [if_neg h2]
        by_cases h3 : cfgDup.api_keys.isNone = true
        · rw [if_pos h3]; exact ⟨_, rfl⟩
        · rw [if_neg h3, hm]
          simp only [Option.getD_some]
          cases hvm : validate_models msDup [] 0 with
          | error e => exact ⟨e, by simp [hvm, Bind.bind, Except.bind]⟩
          | ok u =>
            exact absurd (validate_models_ok_nodup msDup [] 0 (by rw [hvm])).1 hdup

/-- Witness for C7: the five-backend sample configuration yields its first
three enabled entries in order, and the duplicate-code-name configuration is
rejected. -/
theorem enabled_models_and_duplicate_code_names_witness :
    get_enabled_models demoConfig
      = [⟨"M1", "openai", "id1", "m1", true⟩, ⟨"M3", "openrouter", "id3", "m3", true⟩,
         ⟨"M4", "openai", "id4", "m4", true⟩] ∧
    ∃ e, validate_config dupConfig = .error e := by
  constructor
  · rw [(enabled_models_and_duplicate_code_names demoConfig dupConfig demoModels dupModels).1
      rfl (by decide)]
    rfl
  · exact (enabled_models_and_duplicate_code_names demoConfig dupConfig demoModels dupModels).2
      rfl (by decide)

/-- Claim C8 counterexample: a source that exists, is readable, and parses —
to a non-mapping document (a YAML list, a scalar, or `None` from an empty
file) — also yields the default configuration (the `AttributeError` raised at
models.py 44 is caught by the generic handler at models.py 57), so "defaults
exactly when missing or unreadable" is false. -/
theorem load_config_claim_false : ¬ defaults_exactly_on_missing_or_unreadable := by
  intro h
  have h2 := (h (fun _ => none) (.parsed .nonMapping)).mp rfl
  rcases h2 with h3 | ⟨msg, h3⟩ <;> exact SourceOutcome.noConfusion h3

/-- Claim C8 (amended): the loader returns the default configuration whenever
the source is missing, unreadable, or parses to a non-mapping document; it
fails with a ConfigValidationError exactly when YAML parsing itself fails;
and a parsed mapping is returned (with its api_keys expanded). -/
theorem load_config_defaults_and_parse_failure (env : String → Option String)
    (s : SourceOutcome) :
    ((s = .missing ∨ (∃ msg, s = .unreadable msg) ∨ s = .parsed .nonMapping) →
        load_config env s = .ok default_config) ∧
    ((∃ e, load_config env s = .error e) ↔ ∃ msg, s = .parseFail msg) := by
  constructor
  · rintro (rfl | ⟨msg, rfl⟩ | rfl) <;> rfl
  · constructor
    · rintro ⟨e, he⟩
      cases s with
      | missing => simp [load_config] at he
      | unreadable m => simp [load_config] at he
      | parseFail m => exact ⟨m, rfl⟩
      | parsed d =>
        cases d with
        | mapping cfg => simp [load_config] at he
        | nonMapping => simp [load_config] at he
    · rintro ⟨msg, rfl⟩
      exact ⟨_, rfl⟩

/-- Witness for the amended C8: a missing file falls back to the defaults and
a parse failure is a hard error. -/
theorem load_config_defaults_and_parse_failure_witness :
    load_config (fun _ => none) .missing = .ok default_config ∧
    (∃ e, load_config (fun _ => none) (.parseFail "bad indent") = .error e) :=
  ⟨(load_config_defaults_and_parse_failure (fun _ => none) .missing).1 (Or.inl rfl),
    (load_config_defaults_and_parse_failure (fun _ => none) (.parseFail "bad indent")).2.mpr
      ⟨"bad indent", rfl⟩⟩

/-- Witness for C10: two constructions at different timestamps and different
TMPDIRs both yield the first construction's path. -/
theorem logger_singleton_same_path_witness :
    "/tmp/ai-council-2025-01-01T00-00-00.log" ∈
      runLoggerConstructions ⟨none⟩
        [("2025-01-01T00:00:00", "/tmp"), ("2025-01-01T00:00:07", "/var/tmp")] ∧
    "/tmp/ai-council-2025-01-01T00-00-00.log" = logFileName "2025-01-01T00:00:00" "/tmp" :=
  ⟨by decide,
    logger_singleton_same_path ("2025-01-01T00:00:00", "/tmp")
      [("2025-01-01T00:00:07", "/var/tmp")] _ (by decide)⟩

end AICouncil
